import Mathlib

/-
Shallow embedding of the retryableredis package: a resilient wrapper
around a single radix connection with reconnect-and-retry policy, plus
the two deferred command-action wrappers (RetryableFlatCmd and
RetryableCmd).  The environment (the radix library and the network) is
modelled by explicit oracles: lists of outcomes for successive inner Do
calls and successive transport dials, where none is a nil error
(success) and some e a Go error e.  Executions record a trace of
observable events (closes, callback invocations, dials, sleeps, inner
Do attempts).
-/

namespace Retryableredis

/-- Go error value as the wrapper observes it: the textual message
(a Go string, modelled as its character sequence) and whether the
dynamic type satisfies the net.Error interface. -/
structure GoError where
  msg : List Char
  isNet : Bool
deriving DecidableEq

/-- strings.HasPrefix from the Go standard library: hasPre s p is true
when p is a prefix of s. -/
def hasPre : List Char → List Char → Bool
  | _, [] => true
  | [], _ :: _ => false
  | c :: s, d :: p => c == d && hasPre s p

/-- The literal prefix matched against error messages in Do. -/
def loadingPre : List Char := "LOADING".toList

/-- DialConfig from the source.  The two callbacks are modelled by
whether they are configured (non-nil in Go); their invocations are
recorded as trace events.  DialOpts are opaque handles passed through
to the dialer. -/
structure DialConfig where
  network : List Char
  addr : List Char
  onReconnect : Bool
  onRetry : Bool
  dialOpts : List Nat
deriving DecidableEq

/-- retryableRedisConn's mutable state: the current inner radix.Conn as
an optional handle (none is Go nil), plus a counter minting a fresh
handle at every dial so that distinct connections are distinguishable.
The immutable conf field is passed separately to every operation. -/
structure RetryableRedisConn where
  inner : Option Nat
  dialCount : Nat
deriving DecidableEq

/-- Observable steps of an execution: closing the previous inner
connection, an OnReconnect callback invocation with its cause, a
transport dial with its outcome, an OnRetry callback invocation, a
sleep of the given number of milliseconds, and one inner Do attempt
with its outcome. -/
inductive Event where
  | closeInner
  | onReconnectCb (cause : Option GoError)
  | dialAttempt (result : Option GoError)
  | onRetryCb (e : GoError)
  | sleep (ms : Nat)
  | innerDo (result : Option GoError)
deriving DecidableEq

/-- retryableRedisConn.Reconnect: close any existing inner connection
(best effort), invoke OnReconnect with the cause when configured, dial,
store the dial result as the new inner unconditionally, and return the
dial error.  The environment's dial outcome is dialRes (none is a
successful dial). -/
def Reconnect (conf : DialConfig) (rc : RetryableRedisConn) (cause : Option GoError)
    (dialRes : Option GoError) : RetryableRedisConn × List Event × Option GoError :=
  let closeEvs : List Event := if rc.inner.isSome then [Event.closeInner] else []
  let cbEvs : List Event := if conf.onReconnect then [Event.onReconnectCb cause] else []
  match dialRes with
  | none =>
      (⟨some rc.dialCount, rc.dialCount + 1⟩,
       closeEvs ++ cbEvs ++ [Event.dialAttempt none], none)
  | some e =>
      (⟨none, rc.dialCount + 1⟩,
       closeEvs ++ cbEvs ++ [Event.dialAttempt (some e)], some e)

/-- retryableRedisConn.ReconnectLoop: retry Reconnect until it succeeds,
updating the rolling cause to the latest error and sleeping 500ms after
every failed attempt.  The environment supplies the outcomes of the
successive dials in dials; the loop returns the new state, its trace
and the unconsumed dial outcomes.  none models that the loop is still
running when the supplied outcomes are exhausted (in Go the loop never
returns a non-nil error). -/
def ReconnectLoop (conf : DialConfig) (rc : RetryableRedisConn) (cause : Option GoError) :
    List (Option GoError) → Option (RetryableRedisConn × List Event × List (Option GoError))
  | [] => none
  | d :: rest =>
    let r := Reconnect conf rc cause d
    match r.2.2 with
    | none => some (r.1, r.2.1, rest)
    | some e =>
      (ReconnectLoop conf r.1 (some e) rest).map
        (fun s => (s.1, r.2.1 ++ Event.sleep 500 :: s.2.1, s.2.2))

/-- Result of a wrapper call: normal nil return, return of an error, a
nil-pointer panic from dereferencing a nil inner connection, or the
supplied environment outcomes ran out while the loop was still going. -/
inductive DoOutcome where
  | ok
  | err (e : GoError)
  | nilPanic
  | fuelOut
deriving DecidableEq

/-- retryableRedisConn.Do: run the action on the inner connection in a
loop.  Return nil on success.  On a net.Error run ReconnectLoop with
that error as cause and retry.  Otherwise, on an error whose message
starts with LOADING, invoke OnRetry when configured, sleep 250ms and
retry on the same connection.  Return any other error unmodified.
doRes lists the outcome of each successive inner Do call, dials the
outcome of each successive transport dial; calling into a nil inner
connection is a nil-pointer panic. -/
def Do (conf : DialConfig) :
    RetryableRedisConn → List (Option GoError) → List (Option GoError) →
      DoOutcome × List Event × RetryableRedisConn
  | ⟨none, n⟩, _, _ => (DoOutcome.nilPanic, [], ⟨none, n⟩)
  | ⟨some c, n⟩, [], _ => (DoOutcome.fuelOut, [], ⟨some c, n⟩)
  | ⟨some c, n⟩, none :: _, _ => (DoOutcome.ok, [Event.innerDo none], ⟨some c, n⟩)
  | ⟨some c, n⟩, some e :: rest, dials =>
    if e.isNet then
      match ReconnectLoop conf ⟨some c, n⟩ (some e) dials with
      | none => (DoOutcome.fuelOut, [Event.innerDo (some e)], ⟨some c, n⟩)
      | some (rc1, evs1, dials1) =>
        let k := Do conf rc1 rest dials1
        (k.1, Event.innerDo (some e) :: evs1 ++ k.2.1, k.2.2)
    else if hasPre e.msg loadingPre then
      let k := Do conf ⟨some c, n⟩ rest dials
      (k.1, Event.innerDo (some e) ::
        (if conf.onRetry then [Event.onRetryCb e] else []) ++ Event.sleep 250 :: k.2.1,
       k.2.2)
    else
      (DoOutcome.err e, [Event.innerDo (some e)], ⟨some c, n⟩)

/-- Dial: build the wrapper with the stored config and a nil inner, run
exactly one Reconnect with nil cause, and return the wrapper together
with that attempt's error (the wrapper is returned even when the error
is non-nil). -/
def Dial (conf : DialConfig) (dialRes : Option GoError) :
    RetryableRedisConn × List Event × Option GoError :=
  Reconnect conf ⟨none, 0⟩ none dialRes

/-- Outcome of a forwarded call on the wrapper: a nil-pointer panic
when the inner connection is nil, otherwise whatever the inner call
returned. -/
inductive FwdOutcome where
  | nilPanic
  | ret (res : Option GoError)
deriving DecidableEq

/-- retryableRedisConn.Close forwards to inner.Close; a nil inner is a
nil-pointer panic. -/
def Close (rc : RetryableRedisConn) (res : Option GoError) : FwdOutcome :=
  match rc.inner with
  | none => FwdOutcome.nilPanic
  | some _ => FwdOutcome.ret res

/-- retryableRedisConn.Encode forwards to inner.Encode; a nil inner is
a nil-pointer panic. -/
def Encode (rc : RetryableRedisConn) (res : Option GoError) : FwdOutcome :=
  match rc.inner with
  | none => FwdOutcome.nilPanic
  | some _ => FwdOutcome.ret res

/-- retryableRedisConn.Decode forwards to inner.Decode; a nil inner is
a nil-pointer panic. -/
def Decode (rc : RetryableRedisConn) (res : Option GoError) : FwdOutcome :=
  match rc.inner with
  | none => FwdOutcome.nilPanic
  | some _ => FwdOutcome.ret res

/-- retryableRedisConn.NetConn forwards to inner.NetConn; a nil inner
is a nil-pointer panic. -/
def NetConn (rc : RetryableRedisConn) : FwdOutcome :=
  match rc.inner with
  | none => FwdOutcome.nilPanic
  | some _ => FwdOutcome.ret none

/-- A radix.CmdAction built by radix.FlatCmd, identified by its
construction parameters (receiver and flat arguments are opaque
handles). -/
structure FlatCmdObj where
  rcv : Nat
  cmd : List Char
  key : List Char
  args : List Nat
deriving DecidableEq

/-- radix.FlatCmd as the wrapper uses it. -/
def radixFlatCmd (rcv : Nat) (cmd key : List Char) (args : List Nat) : FlatCmdObj :=
  ⟨rcv, cmd, key, args⟩

/-- RetryableFlatCmd: the stored command parameters plus the lazily
(re)bound inner radix action. -/
structure RetryableFlatCmd where
  rcv : Nat
  cmd : List Char
  key : List Char
  args : List Nat
  inner : Option FlatCmdObj
deriving DecidableEq

/-- FlatCmd constructor: stores the parameters and eagerly binds an
inner radix.FlatCmd action. -/
def FlatCmd (rcv : Nat) (cmd key : List Char) (args : List Nat) : RetryableFlatCmd :=
  ⟨rcv, cmd, key, args, some (radixFlatCmd rcv cmd key args)⟩

/-- RetryableFlatCmd.getInner: rebuild the inner action from the stored
parameters when it is absent; returns the updated wrapper and the bound
action. -/
def RetryableFlatCmd.getInner (r : RetryableFlatCmd) : RetryableFlatCmd × FlatCmdObj :=
  match r.inner with
  | some a => (r, a)
  | none =>
      ({ r with inner := some (radixFlatCmd r.rcv r.cmd r.key r.args) },
       radixFlatCmd r.rcv r.cmd r.key r.args)

/-- RetryableFlatCmd.MarshalRESP forwards to the bound action; res is
the outcome of the inner marshal against the writer. -/
def RetryableFlatCmd.MarshalRESP (r : RetryableFlatCmd) (res : Option GoError) :
    RetryableFlatCmd × Option GoError :=
  ((r.getInner).1, res)

/-- RetryableFlatCmd.UnmarshalRESP forwards to the bound action and
then discards it (inner set to nil) whatever the outcome res of the
inner unmarshal was. -/
def RetryableFlatCmd.UnmarshalRESP (r : RetryableFlatCmd) (res : Option GoError) :
    RetryableFlatCmd × Option GoError :=
  ({ (r.getInner).1 with inner := none }, res)

/-- RetryableFlatCmd.Run: Encode this wrapper on the connection (which
invokes MarshalRESP) and, only when that succeeded, Decode into it
(which invokes UnmarshalRESP).  encRes and decRes are the outcomes of
the two phases. -/
def RetryableFlatCmd.Run (r : RetryableFlatCmd) (encRes decRes : Option GoError) :
    RetryableFlatCmd × Option GoError :=
  match r.MarshalRESP encRes with
  | (r1, some e) => (r1, some e)
  | (r1, none) => r1.UnmarshalRESP decRes

/-- A radix.CmdAction built by radix.Cmd, identified by its
construction parameters. -/
structure CmdObj where
  rcv : Nat
  cmd : List Char
  args : List (List Char)
deriving DecidableEq

/-- radix.Cmd as the wrapper uses it. -/
def radixCmd (rcv : Nat) (cmd : List Char) (args : List (List Char)) : CmdObj :=
  ⟨rcv, cmd, args⟩

/-- RetryableCmd: the stored command parameters (its key field is never
set by the constructor) plus the lazily (re)bound inner radix action. -/
structure RetryableCmd where
  rcv : Nat
  cmd : List Char
  key : List Char
  args : List (List Char)
  inner : Option CmdObj
deriving DecidableEq

/-- Cmd constructor: stores the parameters and eagerly binds an inner
radix.Cmd action. -/
def Cmd (rcv : Nat) (cmd : List Char) (args : List (List Char)) : RetryableCmd :=
  ⟨rcv, cmd, [], args, some (radixCmd rcv cmd args)⟩

/-- RetryableCmd.getInner: rebuild the inner action from the stored
parameters when it is absent. -/
def RetryableCmd.getInner (r : RetryableCmd) : RetryableCmd × CmdObj :=
  match r.inner with
  | some a => (r, a)
  | none =>
      ({ r with inner := some (radixCmd r.rcv r.cmd r.args) },
       radixCmd r.rcv r.cmd r.args)

/-- RetryableCmd.MarshalRESP forwards to the bound action. -/
def RetryableCmd.MarshalRESP (r : RetryableCmd) (res : Option GoError) :
    RetryableCmd × Option GoError :=
  ((r.getInner).1, res)

/-- RetryableCmd.UnmarshalRESP forwards to the bound action and then
discards it (inner set to nil) whatever the outcome was. -/
def RetryableCmd.UnmarshalRESP (r : RetryableCmd) (res : Option GoError) :
    RetryableCmd × Option GoError :=
  ({ (r.getInner).1 with inner := none }, res)

/-- RetryableCmd.Run: Encode then, only on success, Decode. -/
def RetryableCmd.Run (r : RetryableCmd) (encRes decRes : Option GoError) :
    RetryableCmd × Option GoError :=
  match r.MarshalRESP encRes with
  | (r1, some e) => (r1, some e)
  | (r1, none) => r1.UnmarshalRESP decRes

/-- Event classifier: is this event a callback invocation? -/
def Event.isCb : Event → Bool
  | Event.onReconnectCb _ => true
  | Event.onRetryCb _ => true
  | _ => false

/-- Event classifier: is this event a transport dial attempt? -/
def Event.isDialAttempt : Event → Bool
  | Event.dialAttempt _ => true
  | _ => false

/-- Event classifier: is this event a sleep? -/
def Event.isSleep : Event → Bool
  | Event.sleep _ => true
  | _ => false

/-- Event classifier: is this event a loading-retry marker (an OnRetry
invocation or the 250ms loading sleep)? -/
def Event.isLoadingMarker : Event → Bool
  | Event.onRetryCb _ => true
  | Event.sleep ms => ms == 250
  | _ => false

/-- The cause carried by an OnReconnect callback event. -/
def cbCause : Event → Option (Option GoError)
  | Event.onReconnectCb c => some c
  | _ => none

/-- The rolling causes of a reconnect loop: the initial cause, then the
error of each failed dial, one entry per attempt actually made. -/
def rollingCauses (cause : Option GoError) : List (Option GoError) → List (Option GoError)
  | [] => []
  | none :: _ => [cause]
  | some e :: rest => cause :: rollingCauses (some e) rest

/-- Replace the two callback-presence flags of a configuration. -/
def setFlags (conf : DialConfig) (b1 b2 : Bool) : DialConfig :=
  ⟨conf.network, conf.addr, b1, b2, conf.dialOpts⟩

/-- Erase the callback events from a trace, keeping the closes, dials,
sleeps and inner Do attempts. -/
def stripCb (evs : List Event) : List Event :=
  evs.filter (fun ev => !ev.isCb)


theorem Reconnect_err (conf : DialConfig) (rc : RetryableRedisConn)
    (cause d : Option GoError) : (Reconnect conf rc cause d).2.2 = d := by
  cases d <;> simp [Reconnect]

theorem Reconnect_trace (conf : DialConfig) (rc : RetryableRedisConn)
    (cause d : Option GoError) :
    (Reconnect conf rc cause d).2.1 =
      (if rc.inner.isSome then [Event.closeInner] else []) ++
        (if conf.onReconnect then [Event.onReconnectCb cause] else []) ++
          [Event.dialAttempt d] := by
  cases d <;> simp [Reconnect]

theorem Reconnect_state (conf : DialConfig) (rc : RetryableRedisConn)
    (cause d : Option GoError) :
    (Reconnect conf rc cause d).1 =
      ⟨match d with | none => some rc.dialCount | some _ => none, rc.dialCount + 1⟩ := by
  cases d <;> simp [Reconnect]

theorem ReconnectLoop_nil (conf : DialConfig) (rc : RetryableRedisConn)
    (cause : Option GoError) : ReconnectLoop conf rc cause [] = none := rfl

theorem ReconnectLoop_cons_ok (conf : DialConfig) (rc : RetryableRedisConn)
    (cause : Option GoError) (rest : List (Option GoError)) :
    ReconnectLoop conf rc cause (none :: rest) =
      some ((Reconnect conf rc cause none).1, (Reconnect conf rc cause none).2.1, rest) := rfl

theorem ReconnectLoop_cons_fail (conf : DialConfig) (rc : RetryableRedisConn)
    (cause : Option GoError) (e : GoError) (rest : List (Option GoError)) :
    ReconnectLoop conf rc cause (some e :: rest) =
      (ReconnectLoop conf (Reconnect conf rc cause (some e)).1 (some e) rest).map
        (fun s => (s.1, (Reconnect conf rc cause (some e)).2.1 ++ Event.sleep 500 :: s.2.1,
                   s.2.2)) := rfl

theorem reconnectLoop_causes (conf : DialConfig) (dials : List (Option GoError)) :
    ∀ (rc rc1 : RetryableRedisConn) (cause : Option GoError) (evs1 : List Event)
      (dials1 : List (Option GoError)),
      conf.onReconnect = true →
      ReconnectLoop conf rc cause dials = some (rc1, evs1, dials1) →
      evs1.filterMap cbCause = rollingCauses cause dials ∧
      evs1.countP Event.isDialAttempt = (rollingCauses cause dials).length := by
  induction dials with
  | nil =>
    intro rc rc1 cause evs1 dials1 hcb h
    simp [ReconnectLoop_nil] at h
  | cons d rest ih =>
    intro rc rc1 cause evs1 dials1 hcb h
    cases d with
    | none =>
      rw [ReconnectLoop_cons_ok, Option.some_inj] at h
      injection h with h1 h23
      injection h23 with h2 h3
      subst h2
      rw [Reconnect_trace]
      cases hi : rc.inner.isSome <;>
        simp [hi, hcb, rollingCauses, cbCause, Event.isDialAttempt, List.countP_cons,
          List.countP_append]
    | some e =>
      rw [ReconnectLoop_cons_fail] at h
      cases hr : ReconnectLoop conf (Reconnect conf rc cause (some e)).1 (some e) rest with
      | none => rw [hr, Option.map_none'] at h; exact Option.noConfusion h
      | some s =>
        rw [hr, Option.map_some'] at h
        rw [Option.some_inj] at h
        injection h with h1 h23
        injection h23 with h2 h3
        subst h2
        have hih := ih (Reconnect conf rc cause (some e)).1 s.1 (some e) s.2.1 s.2.2 hcb
          (by rw [hr])
        rw [Reconnect_trace]
        cases hi : rc.inner.isSome <;>
          simp [hi, hcb, rollingCauses, cbCause, Event.isDialAttempt, List.countP_cons,
            List.countP_append, hih.1, hih.2]

theorem reconnectLoop_isSome (conf : DialConfig) (dials : List (Option GoError)) :
    ∀ (rc : RetryableRedisConn) (cause : Option GoError),
      (ReconnectLoop conf rc cause dials).isSome = true ↔ none ∈ dials := by
  induction dials with
  | nil => intro rc cause; simp [ReconnectLoop_nil]
  | cons d rest ih =>
    intro rc cause
    cases d with
    | none => simp [ReconnectLoop_cons_ok]
    | some e =>
      rw [ReconnectLoop_cons_fail]
      simp [ih]

theorem reconnectLoop_noLoading (conf : DialConfig) (dials : List (Option GoError)) :
    ∀ (rc rc1 : RetryableRedisConn) (cause : Option GoError) (evs1 : List Event)
      (dials1 : List (Option GoError)),
      ReconnectLoop conf rc cause dials = some (rc1, evs1, dials1) →
      evs1.countP Event.isLoadingMarker = 0 := by
  induction dials with
  | nil =>
    intro rc rc1 cause evs1 dials1 h
    simp [ReconnectLoop_nil] at h
  | cons d rest ih =>
    intro rc rc1 cause evs1 dials1 h
    cases d with
    | none =>
      rw [ReconnectLoop_cons_ok, Option.some_inj] at h
      injection h with h1 h23
      injection h23 with h2 h3
      subst h2
      rw [Reconnect_trace]
      cases hi : rc.inner.isSome <;> cases hcb : conf.onReconnect <;>
        simp [hi, hcb, Event.isLoadingMarker, List.countP_cons, List.countP_append]
    | some e =>
      rw [ReconnectLoop_cons_fail] at h
      cases hr : ReconnectLoop conf (Reconnect conf rc cause (some e)).1 (some e) rest with
      | none => rw [hr, Option.map_none'] at h; exact Option.noConfusion h
      | some s =>
        rw [hr, Option.map_some'] at h
        rw [Option.some_inj] at h
        injection h with h1 h23
        injection h23 with h2 h3
        subst h2
        have hih := ih (Reconnect conf rc cause (some e)).1 s.1 (some e) s.2.1 s.2.2 (by rw [hr])
        rw [Reconnect_trace]
        cases hi : rc.inner.isSome <;> cases hcb : conf.onReconnect <;>
          simp [hi, hcb, Event.isLoadingMarker, List.countP_cons, List.countP_append, hih]


theorem Do_nilInner (conf : DialConfig) (n : Nat) (doRes dials : List (Option GoError)) :
    Do conf ⟨none, n⟩ doRes dials = (DoOutcome.nilPanic, [], ⟨none, n⟩) := by
  cases doRes <;> simp [Do]

theorem Do_net (conf : DialConfig) (c n : Nat) (e : GoError)
    (rest dials : List (Option GoError)) (rc1 : RetryableRedisConn) (evs1 : List Event)
    (dials1 : List (Option GoError)) (hn : e.isNet = true)
    (hrl : ReconnectLoop conf ⟨some c, n⟩ (some e) dials = some (rc1, evs1, dials1)) :
    Do conf ⟨some c, n⟩ (some e :: rest) dials =
      ((Do conf rc1 rest dials1).1,
       Event.innerDo (some e) :: evs1 ++ (Do conf rc1 rest dials1).2.1,
       (Do conf rc1 rest dials1).2.2) := by
  simp [Do, hn, hrl]

theorem Do_loading (conf : DialConfig) (c n : Nat) (e : GoError)
    (rest dials : List (Option GoError)) (he1 : e.isNet = false)
    (he2 : hasPre e.msg loadingPre = true) :
    Do conf ⟨some c, n⟩ (some e :: rest) dials =
      ((Do conf ⟨some c, n⟩ rest dials).1,
       Event.innerDo (some e) ::
         (if conf.onRetry then [Event.onRetryCb e] else []) ++
           Event.sleep 250 :: (Do conf ⟨some c, n⟩ rest dials).2.1,
       (Do conf ⟨some c, n⟩ rest dials).2.2) := by
  simp [Do, he1, he2]

theorem Do_terminal (conf : DialConfig) (c n : Nat) (e : GoError)
    (rest dials : List (Option GoError)) (he1 : e.isNet = false)
    (he2 : hasPre e.msg loadingPre = false) :
    Do conf ⟨some c, n⟩ (some e :: rest) dials =
      (DoOutcome.err e, [Event.innerDo (some e)], ⟨some c, n⟩) := by
  simp [Do, he1, he2]

/-- Claim C1: for every action and every inner-connection error that is
neither a net.Error nor an error whose message begins with LOADING, the
wrapper's Do returns that exact error the moment it occurs, unmodified,
with no sleep, no reconnect dial and no change to the inner
connection. -/
theorem do_terminal_error_passthrough (conf : DialConfig) (c n : Nat) (e : GoError)
    (rest dials : List (Option GoError)) (he1 : e.isNet = false)
    (he2 : hasPre e.msg loadingPre = false) :
    Do conf ⟨some c, n⟩ (some e :: rest) dials =
      (DoOutcome.err e, [Event.innerDo (some e)], ⟨some c, n⟩) ∧
    (Do conf ⟨some c, n⟩ (some e :: rest) dials).2.1.countP Event.isSleep = 0 ∧
    (Do conf ⟨some c, n⟩ (some e :: rest) dials).2.1.countP Event.isDialAttempt = 0 := by
  refine ⟨Do_terminal conf c n e rest dials he1 he2, ?_, ?_⟩ <;>
    rw [Do_terminal conf c n e rest dials he1 he2] <;>
      simp [Event.isSleep, Event.isDialAttempt, List.countP_cons]

/-- Witness for C1 at a concrete WRONGTYPE error. -/
theorem do_terminal_error_passthrough_witness :
    Do ⟨[], [], true, true, []⟩ ⟨some 0, 1⟩
        [some ⟨"WRONGTYPE Operation against a key".toList, false⟩] [] =
      (DoOutcome.err ⟨"WRONGTYPE Operation against a key".toList, false⟩,
       [Event.innerDo (some ⟨"WRONGTYPE Operation against a key".toList, false⟩)],
       ⟨some 0, 1⟩) ∧
    (Do ⟨[], [], true, true, []⟩ ⟨some 0, 1⟩
        [some ⟨"WRONGTYPE Operation against a key".toList, false⟩] []).2.1.countP
      Event.isSleep = 0 ∧
    (Do ⟨[], [], true, true, []⟩ ⟨some 0, 1⟩
        [some ⟨"WRONGTYPE Operation against a key".toList, false⟩] []).2.1.countP
      Event.isDialAttempt = 0 :=
  do_terminal_error_passthrough ⟨[], [], true, true, []⟩ 0 1
    ⟨"WRONGTYPE Operation against a key".toList, false⟩ [] [] (by decide) (by decide)


/-- Counterexample to claim C2 as stated: an error that is a net.Error
and whose message begins with LOADING makes Do reconnect (one dial
attempt, inner connection replaced), with no 250ms sleep and no OnRetry
invocation even though OnRetry is configured. -/
theorem do_loading_counterexample :
    hasPre ("LOADING x".toList) loadingPre = true ∧
    Do ⟨[], [], false, true, []⟩ ⟨some 0, 1⟩
        [some ⟨"LOADING x".toList, true⟩, none] [none] =
      (DoOutcome.ok,
       [Event.innerDo (some ⟨"LOADING x".toList, true⟩), Event.closeInner,
        Event.dialAttempt none, Event.innerDo none],
       ⟨some 1, 2⟩) ∧
    (Do ⟨[], [], false, true, []⟩ ⟨some 0, 1⟩
        [some ⟨"LOADING x".toList, true⟩, none] [none]).2.1.countP
      Event.isLoadingMarker = 0 ∧
    (Do ⟨[], [], false, true, []⟩ ⟨some 0, 1⟩
        [some ⟨"LOADING x".toList, true⟩, none] [none]).2.1.countP
      Event.isDialAttempt = 1 := by
  decide

/-- Claim C2 (amended to errors that are not net.Error): for every
non-network error whose message begins with LOADING, Do never
reconnects (no dial attempt is added), invokes OnRetry exactly when one
is configured, sleeps exactly 250ms, and re-issues the same action on
the same, unchanged inner connection state. -/
theorem do_loading_retry_same_conn (conf : DialConfig) (c n : Nat) (e : GoError)
    (rest dials : List (Option GoError)) (he1 : e.isNet = false)
    (he2 : hasPre e.msg loadingPre = true) :
    Do conf ⟨some c, n⟩ (some e :: rest) dials =
      ((Do conf ⟨some c, n⟩ rest dials).1,
       Event.innerDo (some e) ::
         (if conf.onRetry then [Event.onRetryCb e] else []) ++
           Event.sleep 250 :: (Do conf ⟨some c, n⟩ rest dials).2.1,
       (Do conf ⟨some c, n⟩ rest dials).2.2) ∧
    (Do conf ⟨some c, n⟩ (some e :: rest) dials).2.1.countP Event.isDialAttempt =
      (Do conf ⟨some c, n⟩ rest dials).2.1.countP Event.isDialAttempt := by
  refine ⟨Do_loading conf c n e rest dials he1 he2, ?_⟩
  rw [Do_loading conf c n e rest dials he1 he2]
  cases hr : conf.onRetry <;>
    simp [hr, Event.isDialAttempt, List.countP_cons, List.countP_append]

/-- Witness for the amended C2 at a concrete loading error. -/
theorem do_loading_retry_same_conn_witness :
    Do ⟨[], [], true, true, []⟩ ⟨some 0, 1⟩
        [some ⟨"LOADING Redis is loading".toList, false⟩, none] [] =
      ((Do ⟨[], [], true, true, []⟩ ⟨some 0, 1⟩ [none] []).1,
       Event.innerDo (some ⟨"LOADING Redis is loading".toList, false⟩) ::
         (if (⟨[], [], true, true, []⟩ : DialConfig).onRetry then
            [Event.onRetryCb ⟨"LOADING Redis is loading".toList, false⟩] else []) ++
           Event.sleep 250 ::
             (Do ⟨[], [], true, true, []⟩ ⟨some 0, 1⟩ [none] []).2.1,
       (Do ⟨[], [], true, true, []⟩ ⟨some 0, 1⟩ [none] []).2.2) ∧
    (Do ⟨[], [], true, true, []⟩ ⟨some 0, 1⟩
        [some ⟨"LOADING Redis is loading".toList, false⟩, none] []).2.1.countP
      Event.isDialAttempt =
      (Do ⟨[], [], true, true, []⟩ ⟨some 0, 1⟩ [none] []).2.1.countP
        Event.isDialAttempt :=
  do_loading_retry_same_conn ⟨[], [], true, true, []⟩ 0 1
    ⟨"LOADING Redis is loading".toList, false⟩ [none] [] (by decide) (by decide)

/-- Claim C3: on a net.Error, Do runs ReconnectLoop with that error as
cause before re-issuing the action against the reconnected inner
connection, and (with OnReconnect configured) the callback fires
exactly once per reconnect attempt, carrying the rolling cause: first
the triggering error, then each failed dial's error. -/
theorem do_net_error_reconnect_loop (conf : DialConfig) (c n : Nat) (e : GoError)
    (rest dials : List (Option GoError)) (rc1 : RetryableRedisConn) (evs1 : List Event)
    (dials1 : List (Option GoError)) (hn : e.isNet = true)
    (hcb : conf.onReconnect = true)
    (hrl : ReconnectLoop conf ⟨some c, n⟩ (some e) dials = some (rc1, evs1, dials1)) :
    Do conf ⟨some c, n⟩ (some e :: rest) dials =
      ((Do conf rc1 rest dials1).1,
       Event.innerDo (some e) :: evs1 ++ (Do conf rc1 rest dials1).2.1,
       (Do conf rc1 rest dials1).2.2) ∧
    evs1.filterMap cbCause = rollingCauses (some e) dials ∧
    evs1.countP Event.isDialAttempt = (rollingCauses (some e) dials).length := by
  refine ⟨Do_net conf c n e rest dials rc1 evs1 dials1 hn hrl, ?_, ?_⟩
  · exact (reconnectLoop_causes conf dials ⟨some c, n⟩ rc1 (some e) evs1 dials1 hcb hrl).1
  · exact (reconnectLoop_causes conf dials ⟨some c, n⟩ rc1 (some e) evs1 dials1 hcb hrl).2

/-- Witness for C3: one failed dial then a successful one; the
callback fires twice, first with the net error, then with the dial
error. -/
theorem do_net_error_reconnect_loop_witness :
    Do ⟨[], [], true, false, []⟩ ⟨some 0, 1⟩
        (some ⟨"net err".toList, true⟩ :: [none])
        [some ⟨"dial err".toList, false⟩, none] =
      ((Do ⟨[], [], true, false, []⟩ ⟨some 2, 3⟩ [none] []).1,
       Event.innerDo (some ⟨"net err".toList, true⟩) ::
         [Event.closeInner, Event.onReconnectCb (some ⟨"net err".toList, true⟩),
          Event.dialAttempt (some ⟨"dial err".toList, false⟩), Event.sleep 500,
          Event.onReconnectCb (some ⟨"dial err".toList, false⟩),
          Event.dialAttempt none] ++
           (Do ⟨[], [], true, false, []⟩ ⟨some 2, 3⟩ [none] []).2.1,
       (Do ⟨[], [], true, false, []⟩ ⟨some 2, 3⟩ [none] []).2.2) ∧
    [Event.closeInner, Event.onReconnectCb (some ⟨"net err".toList, true⟩),
     Event.dialAttempt (some ⟨"dial err".toList, false⟩), Event.sleep 500,
     Event.onReconnectCb (some ⟨"dial err".toList, false⟩),
     Event.dialAttempt none].filterMap cbCause =
      rollingCauses (some ⟨"net err".toList, true⟩)
        [some ⟨"dial err".toList, false⟩, none] ∧
    [Event.closeInner, Event.onReconnectCb (some ⟨"net err".toList, true⟩),
     Event.dialAttempt (some ⟨"dial err".toList, false⟩), Event.sleep 500,
     Event.onReconnectCb (some ⟨"dial err".toList, false⟩),
     Event.dialAttempt none].countP Event.isDialAttempt =
      (rollingCauses (some ⟨"net err".toList, true⟩)
        [some ⟨"dial err".toList, false⟩, none]).length :=
  do_net_error_reconnect_loop ⟨[], [], true, false, []⟩ 0 1 ⟨"net err".toList, true⟩
    [none] [some ⟨"dial err".toList, false⟩, none] ⟨some 2, 3⟩
    [Event.closeInner, Event.onReconnectCb (some ⟨"net err".toList, true⟩),
     Event.dialAttempt (some ⟨"dial err".toList, false⟩), Event.sleep 500,
     Event.onReconnectCb (some ⟨"dial err".toList, false⟩), Event.dialAttempt none]
    [] (by decide) (by decide) (by decide)

/-- Claim C10: an error that is both a net.Error and has a LOADING
message takes the reconnect path: Do runs ReconnectLoop and re-issues
against the new connection, and the reconnect segment of the trace
contains no loading-retry marker (no OnRetry invocation, no 250ms
sleep). -/
theorem do_net_check_precedes_loading (conf : DialConfig) (c n : Nat) (e : GoError)
    (rest dials : List (Option GoError)) (rc1 : RetryableRedisConn) (evs1 : List Event)
    (dials1 : List (Option GoError)) (hn : e.isNet = true)
    (_hl : hasPre e.msg loadingPre = true)
    (hrl : ReconnectLoop conf ⟨some c, n⟩ (some e) dials = some (rc1, evs1, dials1)) :
    Do conf ⟨some c, n⟩ (some e :: rest) dials =
      ((Do conf rc1 rest dials1).1,
       Event.innerDo (some e) :: evs1 ++ (Do conf rc1 rest dials1).2.1,
       (Do conf rc1 rest dials1).2.2) ∧
    evs1.countP Event.isLoadingMarker = 0 :=
  ⟨Do_net conf c n e rest dials rc1 evs1 dials1 hn hrl,
   reconnectLoop_noLoading conf dials ⟨some c, n⟩ rc1 (some e) evs1 dials1 hrl⟩

/-- Witness for C10 at a concrete net.Error with a LOADING message. -/
theorem do_net_check_precedes_loading_witness :
    Do ⟨[], [], true, true, []⟩ ⟨some 0, 1⟩
        (some ⟨"LOADING x".toList, true⟩ :: []) [none] =
      ((Do ⟨[], [], true, true, []⟩ ⟨some 1, 2⟩ [] []).1,
       Event.innerDo (some ⟨"LOADING x".toList, true⟩) ::
         [Event.closeInner, Event.onReconnectCb (some ⟨"LOADING x".toList, true⟩),
          Event.dialAttempt none] ++
           (Do ⟨[], [], true, true, []⟩ ⟨some 1, 2⟩ [] []).2.1,
       (Do ⟨[], [], true, true, []⟩ ⟨some 1, 2⟩ [] []).2.2) ∧
    [Event.closeInner, Event.onReconnectCb (some ⟨"LOADING x".toList, true⟩),
     Event.dialAttempt none].countP Event.isLoadingMarker = 0 :=
  do_net_check_precedes_loading ⟨[], [], true, true, []⟩ 0 1 ⟨"LOADING x".toList, true⟩
    [] [none] ⟨some 1, 2⟩
    [Event.closeInner, Event.onReconnectCb (some ⟨"LOADING x".toList, true⟩),
     Event.dialAttempt none] [] (by decide) (by decide) (by decide)


/-- Claim C6: ReconnectLoop returns nil as soon as an attempt succeeds;
after a failed attempt it replaces the rolling cause with that
attempt's error (the Reconnect error is exactly the dial outcome) and
sleeps 500ms before the next attempt; it completes exactly when some
supplied dial succeeds — while every attempt keeps failing it never
gives up (and its only return value on completion is nil). -/
theorem reconnect_loop_policy (conf : DialConfig) :
    (∀ (rc : RetryableRedisConn) (cause : Option GoError) (rest : List (Option GoError)),
       ReconnectLoop conf rc cause (none :: rest) =
         some ((Reconnect conf rc cause none).1, (Reconnect conf rc cause none).2.1, rest)) ∧
    (∀ (rc : RetryableRedisConn) (cause : Option GoError) (e : GoError)
       (rest : List (Option GoError)),
       ReconnectLoop conf rc cause (some e :: rest) =
         (ReconnectLoop conf (Reconnect conf rc cause (some e)).1 (some e) rest).map
           (fun s => (s.1,
              (Reconnect conf rc cause (some e)).2.1 ++ Event.sleep 500 :: s.2.1,
              s.2.2))) ∧
    (∀ (rc : RetryableRedisConn) (cause d : Option GoError),
       (Reconnect conf rc cause d).2.2 = d) ∧
    (∀ (rc : RetryableRedisConn) (cause : Option GoError) (dials : List (Option GoError)),
       (ReconnectLoop conf rc cause dials).isSome = true ↔ none ∈ dials) :=
  ⟨fun rc cause rest => ReconnectLoop_cons_ok conf rc cause rest,
   fun rc cause e rest => ReconnectLoop_cons_fail conf rc cause e rest,
   fun rc cause d => Reconnect_err conf rc cause d,
   fun rc cause dials => reconnectLoop_isSome conf dials rc cause⟩

/-- Claim C7: Dial performs exactly one reconnect attempt, with a nil
cause, and synchronously returns the wrapper (inner set to the dial
result) together with exactly the error of that single attempt; the
trace holds exactly one dial attempt and no sleep, so no retry
happens. -/
theorem dial_single_attempt (conf : DialConfig) (d : Option GoError) :
    Dial conf d =
      (⟨match d with | none => some 0 | some _ => none, 1⟩,
       (if conf.onReconnect then [Event.onReconnectCb none] else []) ++
         [Event.dialAttempt d],
       d) ∧
    (Dial conf d).2.1.countP Event.isDialAttempt = 1 ∧
    (Dial conf d).2.1.countP Event.isSleep = 0 := by
  cases d <;> cases hc : conf.onReconnect <;>
    simp [Dial, Reconnect, hc, Event.isDialAttempt, Event.isSleep, List.countP_cons,
      List.countP_append]

/-- Claim C9: when the initial transport dial fails, Dial still returns
the wrapper, its error is the dial error, the wrapper's inner is nil,
and every subsequent Do, Close, Encode, Decode or NetConn on it is a
nil-pointer panic, not an error return. -/
theorem dial_failure_nil_inner_panics (conf : DialConfig) (e : GoError)
    (doRes dials : List (Option GoError)) (res : Option GoError) :
    (Dial conf (some e)).2.2 = some e ∧
    (Dial conf (some e)).1.inner = none ∧
    Do conf (Dial conf (some e)).1 doRes dials =
      (DoOutcome.nilPanic, [], (Dial conf (some e)).1) ∧
    Close (Dial conf (some e)).1 res = FwdOutcome.nilPanic ∧
    Encode (Dial conf (some e)).1 res = FwdOutcome.nilPanic ∧
    Decode (Dial conf (some e)).1 res = FwdOutcome.nilPanic ∧
    NetConn (Dial conf (some e)).1 = FwdOutcome.nilPanic := by
  have h1 : (Dial conf (some e)).1 = ⟨none, 1⟩ := by
    cases hc : conf.onReconnect <;> simp [Dial, Reconnect, hc]
  rw [h1]
  refine ⟨?_, rfl, Do_nilInner conf 1 doRes dials, rfl, rfl, rfl, rfl⟩
  cases hc : conf.onReconnect <;> simp [Dial, Reconnect, hc]

/-- Counterexample to claim C4 as stated: a Run whose Encode phase
fails is a completed Run returning an error, yet the bound inner action
is still present (not reset to absent). -/
theorem run_reset_counterexample :
    ((FlatCmd 0 ("HSET".toList) ("k".toList) [1, 2]).Run
        (some ⟨"write err".toList, true⟩) none).2 =
      some ⟨"write err".toList, true⟩ ∧
    ((FlatCmd 0 ("HSET".toList) ("k".toList) [1, 2]).Run
        (some ⟨"write err".toList, true⟩) none).1.inner ≠ none := by
  decide

/-- Claim C4 (amended to runs whose Encode phase succeeded, so that the
decode phase actually ran): for both wrapper variants, after such a Run
— whether it returned nil or an error — the bound inner action is reset
to absent, the stored parameters are unchanged, and the next getInner
(hence the next Run) constructs a fresh bound action from exactly the
original receiver, command name, key and arguments. -/
theorem run_decode_completion_resets_inner :
    (∀ (r : RetryableFlatCmd) (decRes : Option GoError),
       (r.Run none decRes).2 = decRes ∧
       (r.Run none decRes).1 = ⟨r.rcv, r.cmd, r.key, r.args, none⟩ ∧
       ((r.Run none decRes).1).getInner =
         (⟨r.rcv, r.cmd, r.key, r.args, some (radixFlatCmd r.rcv r.cmd r.key r.args)⟩,
          radixFlatCmd r.rcv r.cmd r.key r.args)) ∧
    (∀ (r : RetryableCmd) (decRes : Option GoError),
       (r.Run none decRes).2 = decRes ∧
       (r.Run none decRes).1 = ⟨r.rcv, r.cmd, r.key, r.args, none⟩ ∧
       ((r.Run none decRes).1).getInner =
         (⟨r.rcv, r.cmd, r.key, r.args, some (radixCmd r.rcv r.cmd r.args)⟩,
          radixCmd r.rcv r.cmd r.args)) := by
  constructor
  · intro r decRes
    obtain ⟨rcv, cmd, key, args, inn⟩ := r
    cases inn <;>
      simp [RetryableFlatCmd.Run, RetryableFlatCmd.MarshalRESP,
        RetryableFlatCmd.UnmarshalRESP, RetryableFlatCmd.getInner, radixFlatCmd]
  · intro r decRes
    obtain ⟨rcv, cmd, key, args, inn⟩ := r
    cases inn <;>
      simp [RetryableCmd.Run, RetryableCmd.MarshalRESP,
        RetryableCmd.UnmarshalRESP, RetryableCmd.getInner, radixCmd]

/-- Claim C5: for both wrapper variants, UnmarshalRESP discards the
bound inner action (sets it to nil) whatever the inner unmarshal
outcome was, propagates that outcome unchanged, and the next getInner
then constructs an entirely fresh protocol-level action from the
stored parameters. -/
theorem unmarshal_discards_inner :
    (∀ (r : RetryableFlatCmd) (res : Option GoError),
       ((r.UnmarshalRESP res).1).inner = none ∧
       (r.UnmarshalRESP res).2 = res ∧
       ((r.UnmarshalRESP res).1).getInner =
         (⟨r.rcv, r.cmd, r.key, r.args, some (radixFlatCmd r.rcv r.cmd r.key r.args)⟩,
          radixFlatCmd r.rcv r.cmd r.key r.args)) ∧
    (∀ (r : RetryableCmd) (res : Option GoError),
       ((r.UnmarshalRESP res).1).inner = none ∧
       (r.UnmarshalRESP res).2 = res ∧
       ((r.UnmarshalRESP res).1).getInner =
         (⟨r.rcv, r.cmd, r.key, r.args, some (radixCmd r.rcv r.cmd r.args)⟩,
          radixCmd r.rcv r.cmd r.args)) := by
  constructor
  · intro r res
    obtain ⟨rcv, cmd, key, args, inn⟩ := r
    cases inn <;>
      simp [RetryableFlatCmd.UnmarshalRESP, RetryableFlatCmd.getInner, radixFlatCmd]
  · intro r res
    obtain ⟨rcv, cmd, key, args, inn⟩ := r
    cases inn <;>
      simp [RetryableCmd.UnmarshalRESP, RetryableCmd.getInner, radixCmd]


theorem stripCb_append (a b : List Event) : stripCb (a ++ b) = stripCb a ++ stripCb b := by
  simp [stripCb]

theorem stripCb_sleep_cons (ms : Nat) (a : List Event) :
    stripCb (Event.sleep ms :: a) = Event.sleep ms :: stripCb a := by
  simp [stripCb, Event.isCb]

theorem stripCb_innerDo_cons (r : Option GoError) (a : List Event) :
    stripCb (Event.innerDo r :: a) = Event.innerDo r :: stripCb a := by
  simp [stripCb, Event.isCb]

theorem Reconnect_flags_state (conf : DialConfig) (b1 b2 : Bool)
    (rc : RetryableRedisConn) (cause d : Option GoError) :
    (Reconnect (setFlags conf b1 b2) rc cause d).1 =
      (Reconnect (setFlags conf false false) rc cause d).1 := by
  rw [Reconnect_state, Reconnect_state]

theorem Reconnect_flags_err (conf : DialConfig) (b1 b2 : Bool)
    (rc : RetryableRedisConn) (cause d : Option GoError) :
    (Reconnect (setFlags conf b1 b2) rc cause d).2.2 =
      (Reconnect (setFlags conf false false) rc cause d).2.2 := by
  rw [Reconnect_err, Reconnect_err]

theorem Reconnect_flags_trace (conf : DialConfig) (b1 b2 : Bool)
    (rc : RetryableRedisConn) (cause d : Option GoError) :
    stripCb (Reconnect (setFlags conf b1 b2) rc cause d).2.1 =
      stripCb (Reconnect (setFlags conf false false) rc cause d).2.1 := by
  rw [Reconnect_trace, Reconnect_trace]
  cases b1 <;> cases hi : rc.inner.isSome <;>
    simp [setFlags, stripCb, Event.isCb, hi]

theorem ReconnectLoop_flags (conf : DialConfig) (b1 b2 : Bool)
    (dials : List (Option GoError)) :
    ∀ (rc : RetryableRedisConn) (cause : Option GoError),
      (ReconnectLoop (setFlags conf b1 b2) rc cause dials).map
          (fun s => (s.1, stripCb s.2.1, s.2.2)) =
        (ReconnectLoop (setFlags conf false false) rc cause dials).map
          (fun s => (s.1, stripCb s.2.1, s.2.2)) := by
  induction dials with
  | nil => intro rc cause; rfl
  | cons d rest ih =>
    intro rc cause
    cases d with
    | none =>
      rw [ReconnectLoop_cons_ok, ReconnectLoop_cons_ok]
      simp only [Option.map_some']
      rw [Reconnect_flags_state conf b1 b2 rc cause none,
        Reconnect_flags_trace conf b1 b2 rc cause none]
    | some e =>
      rw [ReconnectLoop_cons_fail, ReconnectLoop_cons_fail,
        Reconnect_flags_state conf b1 b2 rc cause (some e)]
      have hih := ih (Reconnect (setFlags conf false false) rc cause (some e)).1 (some e)
      cases hb : ReconnectLoop (setFlags conf b1 b2)
          (Reconnect (setFlags conf false false) rc cause (some e)).1 (some e) rest with
      | none =>
        cases h0 : ReconnectLoop (setFlags conf false false)
            (Reconnect (setFlags conf false false) rc cause (some e)).1 (some e) rest with
        | none => simp
        | some s0 => rw [hb, h0] at hih; simp at hih
      | some sb =>
        cases h0 : ReconnectLoop (setFlags conf false false)
            (Reconnect (setFlags conf false false) rc cause (some e)).1 (some e) rest with
        | none => rw [hb, h0] at hih; simp at hih
        | some s0 =>
          rw [hb, h0] at hih
          simp only [Option.map_some'] at hih ⊢
          rw [Option.some_inj] at hih
          injection hih with h1 h23
          injection h23 with h2 h3
          rw [Option.some_inj]
          rw [stripCb_append, stripCb_append, stripCb_sleep_cons, stripCb_sleep_cons,
            Reconnect_flags_trace conf b1 b2 rc cause (some e), h1, h2, h3]


theorem stripCb_onRetry_cons (e : GoError) (a : List Event) :
    stripCb (Event.onRetryCb e :: a) = stripCb a := by
  simp [stripCb, Event.isCb]

theorem setFlags_onReconnect (conf : DialConfig) (b1 b2 : Bool) :
    (setFlags conf b1 b2).onReconnect = b1 := rfl

theorem setFlags_onRetry (conf : DialConfig) (b1 b2 : Bool) :
    (setFlags conf b1 b2).onRetry = b2 := rfl

theorem Do_flags (conf : DialConfig) (b1 b2 : Bool) (doRes : List (Option GoError)) :
    ∀ (rc : RetryableRedisConn) (dials : List (Option GoError)),
      (Do (setFlags conf b1 b2) rc doRes dials).1 =
        (Do (setFlags conf false false) rc doRes dials).1 ∧
      stripCb (Do (setFlags conf b1 b2) rc doRes dials).2.1 =
        stripCb (Do (setFlags conf false false) rc doRes dials).2.1 ∧
      (Do (setFlags conf b1 b2) rc doRes dials).2.2 =
        (Do (setFlags conf false false) rc doRes dials).2.2 := by
  induction doRes with
  | nil =>
    intro rc dials
    obtain ⟨inn, n⟩ := rc
    cases inn <;> simp [Do, stripCb]
  | cons r rest ih =>
    intro rc dials
    obtain ⟨inn, n⟩ := rc
    cases inn with
    | none => simp [Do_nilInner, stripCb]
    | some c =>
      cases r with
      | none => simp [Do, stripCb]
      | some e =>
        cases hn : e.isNet with
        | true =>
          have hrlf := ReconnectLoop_flags conf b1 b2 dials ⟨some c, n⟩ (some e)
          cases hb : ReconnectLoop (setFlags conf b1 b2) ⟨some c, n⟩ (some e) dials with
          | none =>
            cases h0 : ReconnectLoop (setFlags conf false false) ⟨some c, n⟩
                (some e) dials with
            | none => simp [Do, hn, hb, h0, stripCb, Event.isCb]
            | some s0 => rw [hb, h0] at hrlf; simp at hrlf
          | some sb =>
            cases h0 : ReconnectLoop (setFlags conf false false) ⟨some c, n⟩
                (some e) dials with
            | none => rw [hb, h0] at hrlf; simp at hrlf
            | some s0 =>
              rw [hb, h0] at hrlf
              simp only [Option.map_some'] at hrlf
              rw [Option.some_inj] at hrlf
              injection hrlf with h1 h23
              injection h23 with h2 h3
              simp only [Do_net (setFlags conf b1 b2) c n e rest dials sb.1 sb.2.1 sb.2.2
                  hn (by rw [hb]),
                Do_net (setFlags conf false false) c n e rest dials s0.1 s0.2.1 s0.2.2
                  hn (by rw [h0])]
              rw [h1, h3]
              refine ⟨(ih s0.1 s0.2.2).1, ?_, (ih s0.1 s0.2.2).2.2⟩
              rw [stripCb_append, stripCb_append, stripCb_innerDo_cons,
                stripCb_innerDo_cons, h2, (ih s0.1 s0.2.2).2.1]
        | false =>
          cases hlo : hasPre e.msg loadingPre with
          | true =>
            simp only [Do_loading (setFlags conf b1 b2) c n e rest dials hn hlo,
              Do_loading (setFlags conf false false) c n e rest dials hn hlo]
            refine ⟨(ih ⟨some c, n⟩ dials).1, ?_, (ih ⟨some c, n⟩ dials).2.2⟩
            rw [stripCb_append, stripCb_append, stripCb_sleep_cons,
              stripCb_sleep_cons, (ih ⟨some c, n⟩ dials).2.1, setFlags_onRetry,
              setFlags_onRetry]
            cases b2 <;> simp [stripCb, Event.isCb]
          | false =>
            simp only [Do_terminal (setFlags conf b1 b2) c n e rest dials hn hlo,
              Do_terminal (setFlags conf false false) c n e rest dials hn hlo]
            exact ⟨trivial, trivial, trivial⟩


theorem reconnectLoop_noCb (conf : DialConfig) (hcb : conf.onReconnect = false)
    (dials : List (Option GoError)) :
    ∀ (rc rc1 : RetryableRedisConn) (cause : Option GoError) (evs1 : List Event)
      (dials1 : List (Option GoError)),
      ReconnectLoop conf rc cause dials = some (rc1, evs1, dials1) →
      evs1.countP Event.isCb = 0 := by
  induction dials with
  | nil =>
    intro rc rc1 cause evs1 dials1 h
    simp [ReconnectLoop_nil] at h
  | cons d rest ih =>
    intro rc rc1 cause evs1 dials1 h
    cases d with
    | none =>
      rw [ReconnectLoop_cons_ok, Option.some_inj] at h
      injection h with h1 h23
      injection h23 with h2 h3
      subst h2
      rw [Reconnect_trace]
      cases hi : rc.inner.isSome <;>
        simp [hi, hcb, Event.isCb, List.countP_cons, List.countP_append]
    | some e =>
      rw [ReconnectLoop_cons_fail] at h
      cases hr : ReconnectLoop conf (Reconnect conf rc cause (some e)).1 (some e) rest with
      | none => rw [hr, Option.map_none'] at h; exact Option.noConfusion h
      | some s =>
        rw [hr, Option.map_some'] at h
        rw [Option.some_inj] at h
        injection h with h1 h23
        injection h23 with h2 h3
        subst h2
        have hih := ih (Reconnect conf rc cause (some e)).1 s.1 (some e) s.2.1 s.2.2 (by rw [hr])
        rw [Reconnect_trace]
        cases hi : rc.inner.isSome <;>
          simp [hi, hcb, Event.isCb, List.countP_cons, List.countP_append, hih]

theorem Do_noCb (conf : DialConfig) (h1 : conf.onReconnect = false)
    (h2 : conf.onRetry = false) (doRes : List (Option GoError)) :
    ∀ (rc : RetryableRedisConn) (dials : List (Option GoError)),
      (Do conf rc doRes dials).2.1.countP Event.isCb = 0 := by
  induction doRes with
  | nil =>
    intro rc dials
    obtain ⟨inn, n⟩ := rc
    cases inn <;> simp [Do]
  | cons r rest ih =>
    intro rc dials
    obtain ⟨inn, n⟩ := rc
    cases inn with
    | none => simp [Do_nilInner]
    | some c =>
      cases r with
      | none => simp [Do, Event.isCb]
      | some e =>
        cases hn : e.isNet with
        | true =>
          cases hb : ReconnectLoop conf ⟨some c, n⟩ (some e) dials with
          | none => simp [Do, hn, hb, Event.isCb]
          | some s =>
            rw [Do_net conf c n e rest dials s.1 s.2.1 s.2.2 hn (by rw [hb])]
            have hloop := reconnectLoop_noCb conf h1 dials ⟨some c, n⟩ s.1 (some e)
              s.2.1 s.2.2 (by rw [hb])
            simp [List.countP_cons, List.countP_append, Event.isCb, hloop,
              ih s.1 s.2.2]
        | false =>
          cases hlo : hasPre e.msg loadingPre with
          | true =>
            rw [Do_loading conf c n e rest dials hn hlo, h2]
            simp [List.countP_cons, List.countP_append, Event.isCb,
              ih ⟨some c, n⟩ dials]
          | false =>
            rw [Do_terminal conf c n e rest dials hn hlo]
            simp [Event.isCb]

/-- Claim C8: the OnReconnect and OnRetry callbacks are purely
observational.  For every configuration, every wrapper state and every
environment behaviour, running Do or Dial with both callbacks absent
yields the same outcome, the same final state, the same returned error
and the same trace of closes, dials, sleeps and inner attempts as
running with any callbacks configured; and with both callbacks absent
no callback invocation ever appears in the trace. -/
theorem callbacks_observational (conf : DialConfig) (b1 b2 : Bool) :
    (∀ (rc : RetryableRedisConn) (doRes dials : List (Option GoError)),
       (Do (setFlags conf b1 b2) rc doRes dials).1 =
         (Do (setFlags conf false false) rc doRes dials).1 ∧
       stripCb (Do (setFlags conf b1 b2) rc doRes dials).2.1 =
         stripCb (Do (setFlags conf false false) rc doRes dials).2.1 ∧
       (Do (setFlags conf b1 b2) rc doRes dials).2.2 =
         (Do (setFlags conf false false) rc doRes dials).2.2) ∧
    (∀ d : Option GoError,
       (Dial (setFlags conf b1 b2) d).1 = (Dial (setFlags conf false false) d).1 ∧
       stripCb (Dial (setFlags conf b1 b2) d).2.1 =
         stripCb (Dial (setFlags conf false false) d).2.1 ∧
       (Dial (setFlags conf b1 b2) d).2.2 = (Dial (setFlags conf false false) d).2.2) ∧
    (∀ (rc : RetryableRedisConn) (doRes dials : List (Option GoError)),
       (Do (setFlags conf false false) rc doRes dials).2.1.countP Event.isCb = 0) ∧
    (∀ d : Option GoError,
       (Dial (setFlags conf false false) d).2.1.countP Event.isCb = 0) := by
  refine ⟨fun rc doRes dials => Do_flags conf b1 b2 doRes rc dials, fun d => ?_,
    fun rc doRes dials => Do_noCb (setFlags conf false false) rfl rfl doRes rc dials,
    fun d => ?_⟩
  · exact ⟨Reconnect_flags_state conf b1 b2 ⟨none, 0⟩ none d,
      Reconnect_flags_trace conf b1 b2 ⟨none, 0⟩ none d,
      Reconnect_flags_err conf b1 b2 ⟨none, 0⟩ none d⟩
  · show (Reconnect (setFlags conf false false) ⟨none, 0⟩ none d).2.1.countP Event.isCb = 0
    rw [Reconnect_trace]
    simp [setFlags, Event.isCb, List.countP_cons, List.countP_append]

end Retryableredis
